import Mathlib

/-!
Verification model of `libraries/model-networking/src/model-networking/TextureCache.cpp`
(hifi texture resource cache).

Shallow embedding: the live registry (`_texturesByHashes`, a map from content
hash to `std::weak_ptr<gpu::Texture>`) is a function from hashes to optional
weak references; a weak reference carries its target and whether it is still
alive (`lock()` succeeds only while alive).  The decode pipeline
(`ImageReader::read`) is a pure function over an environment that fixes the
results of the external collaborators (Qt image parsing, the usage transform,
KTX serialization, the file cache write, and the weak-pointer liveness
checks on the originating resource).  The `NetworkTexture` resource is a
record of the state the C++ object mutates (`_loaded`, `_width`, ...).  The
floating-point downscale arithmetic is characterized over `ℚ`: the scale
factor by its defining equation `s^2 * (w*h) = budget` and the
`(int)(x + 0.5f)` roundings by `|result - x| ≤ 1/2`.
-/

/-- Content hash (`std::string` md5 hex digest in the source). -/
def Hash : Type := String

instance : DecidableEq Hash := inferInstanceAs (DecidableEq String)

/-- A decoded gpu texture (`gpu::Texture`): the fields of it that
`TextureCache.cpp` reads (`getWidth`, `getHeight`, `getStoredSize`). -/
structure GpuTexture where
  width : Nat
  height : Nat
  storedSize : Nat
deriving DecidableEq, Repr

/-- A `std::weak_ptr` to a texture: the target plus whether any owner still
keeps it alive. `lock()` yields the target only while alive. -/
structure WeakRef where
  target : GpuTexture
  alive : Bool
deriving DecidableEq, Repr

/-- `std::weak_ptr::lock`: a strong reference while alive, null otherwise. -/
def WeakRef.lock (w : WeakRef) : Option GpuTexture :=
  if w.alive then some w.target else none

/-- The live registry `TextureCache::_texturesByHashes`:
`std::unordered_map<std::string, std::weak_ptr<gpu::Texture>>`. -/
def Registry : Type := Hash → Option WeakRef

/-- `TextureCache::getTextureByHash`: read the map under the mutex, then
`lock()` the weak pointer; absent entries behave like dead ones (the
default-constructed weak pointer locks to null). -/
def getTextureByHash (reg : Registry) (hash : Hash) : Option GpuTexture :=
  (reg hash).bind WeakRef.lock

/-- `TextureCache::cacheTextureByHash` (the registry's insertOrAdopt): under
the mutex, `result = _texturesByHashes[hash].lock()`; if nothing live is
there, install `texture` and return it, otherwise keep the map as is and
return the live holder.  Returns the accepted texture and the new map. -/
def cacheTextureByHash (reg : Registry) (hash : Hash) (texture : GpuTexture) :
    GpuTexture × Registry :=
  match (reg hash).bind WeakRef.lock with
  | some existing => (existing, reg)
  | none => (texture, fun h => if h = hash then some ⟨texture, true⟩ else reg h)

/-- `NetworkTexture::Type` (the usage types named in `TextureCache.cpp`). -/
inductive TextureType
  | DEFAULT_TEXTURE
  | STRICT_TEXTURE
  | ALBEDO_TEXTURE
  | NORMAL_TEXTURE
  | BUMP_TEXTURE
  | SPECULAR_TEXTURE
  | GLOSS_TEXTURE
  | EMISSIVE_TEXTURE
  | CUBE_TEXTURE
  | OCCLUSION_TEXTURE
  | LIGHTMAP_TEXTURE
  | ROUGHNESS_TEXTURE
  | CUSTOM_TEXTURE
deriving DecidableEq, Repr

/-- The four constant 1x1 opaque textures the cache lazily builds
(`getWhiteTexture`, `getGrayTexture`, `getBlueTexture`, `getBlackTexture`). -/
inductive FallbackColor
  | white
  | gray
  | blue
  | black
deriving DecidableEq, Repr

/-- `getFallbackTextureForType`: returns a default-constructed (null) pointer
when the cache singleton is already destroyed; otherwise the switch assigns
white for DEFAULT/ALBEDO/ROUGHNESS/OCCLUSION, blue for NORMAL, black for
EMISSIVE/LIGHTMAP, and falls through to `break` (leaving the result null) for
BUMP, SPECULAR, GLOSS, CUBE, CUSTOM and STRICT. -/
def getFallbackTextureForType (cacheAlive : Bool) (type : TextureType) :
    Option FallbackColor :=
  if !cacheAlive then none
  else
    match type with
    | .DEFAULT_TEXTURE | .ALBEDO_TEXTURE | .ROUGHNESS_TEXTURE | .OCCLUSION_TEXTURE =>
      some .white
    | .NORMAL_TEXTURE => some .blue
    | .EMISSIVE_TEXTURE | .LIGHTMAP_TEXTURE => some .black
    | .BUMP_TEXTURE | .SPECULAR_TEXTURE | .GLOSS_TEXTURE | .CUBE_TEXTURE
    | .CUSTOM_TEXTURE | .STRICT_TEXTURE => none

/-- The mutable per-resource state of a `NetworkTexture` object that
`TextureCache.cpp` touches: the `Resource` load flags, the texture currently
installed in `_textureSource`, the cached dimensions and the
`networkTextureCreated` notification. -/
structure NetworkTextureState where
  loaded : Bool
  startedLoading : Bool
  failed : Bool
  texture : Option GpuTexture
  width : Nat
  height : Nat
  originalWidth : Nat
  originalHeight : Nat
  size : Nat
  createdEmitted : Bool
deriving DecidableEq, Repr

/-- The state a fresh `Resource`/`NetworkTexture` starts from before the
constructor body runs: nothing loaded, nothing failed, no texture. -/
def freshState : NetworkTextureState :=
  { loaded := false, startedLoading := false, failed := false, texture := none,
    width := 0, height := 0, originalWidth := 0, originalHeight := 0,
    size := 0, createdEmitted := false }

/-- `NetworkTexture::setImage`: record the original dimensions, hand the
texture to `_textureSource`, take width/height/size from it when non-null and
zero the dimensions otherwise (only a warning is printed), then
`finishedLoading(true)` and emit `networkTextureCreated` unconditionally. -/
def setImage (r : NetworkTextureState) (texture : Option GpuTexture)
    (originalWidth originalHeight : Nat) : NetworkTextureState :=
  { r with
    originalWidth := originalWidth
    originalHeight := originalHeight
    texture := texture
    width := match texture with | some t => t.width | none => 0
    height := match texture with | some t => t.height | none => 0
    size := match texture with | some t => t.storedSize | none => r.size
    loaded := true
    failed := false
    createdEmitted := true }

/-- Result of running the `NetworkTexture` constructor: the state written by
the constructor body, and whether a `loadContent` call was queued. -/
structure CtorResult where
  st : NetworkTextureState
  loadContentScheduled : Bool
deriving DecidableEq, Repr

/-- `NetworkTexture::NetworkTexture`: sets `_loaded = true` exactly when the
URL is invalid; independently, when inline content is non-empty it sets
`_startedLoading = true` and queues `loadContent` on the content (which hashes
the bytes and may schedule a decode). -/
def networkTextureConstruct (urlValid : Bool) (contentEmpty : Bool) : CtorResult :=
  { st := { freshState with
      loaded := !urlValid
      startedLoading := !contentEmpty }
    loadContentScheduled := !contentEmpty }

/-- What the KTX disk-cache path of `loadContent` observes for a hash:
whether `_ktxCache.getFile(hash)` finds a file, whether `ktxFile->getKTX()`
parses, and what `gpu::Texture::unserialize(ktx)` produces. -/
structure DiskLookup where
  filePresent : Bool
  ktxOk : Bool
  unserialized : Option GpuTexture
deriving DecidableEq, Repr

/-- Result of `NetworkTexture::loadContent`: the resource state after the
call, the registry after the call, and whether an `ImageReader` decode task
was handed to the thread pool. -/
structure LoadContentResult where
  st : NetworkTextureState
  registry : Registry
  decodeScheduled : Bool

/-- `NetworkTexture::loadContent`: hash the content; if the cache singleton
is alive, look the hash up in the live registry, and on a miss consult the
KTX disk cache — only when the file is present, parses as KTX and
unserializes into a texture is it adopted via `cacheTextureByHash` and
installed with `setImage`; any failure on that path (and a dead cache
singleton) leaves every state untouched and schedules an `ImageReader`. -/
def loadContent (cacheAlive : Bool) (reg : Registry) (hash : Hash)
    (disk : DiskLookup) (r : NetworkTextureState) : LoadContentResult :=
  if cacheAlive then
    match getTextureByHash reg hash with
    | some t => ⟨setImage r (some t) t.width t.height, reg, false⟩
    | none =>
      if disk.filePresent = true ∧ disk.ktxOk = true then
        match disk.unserialized with
        | some t =>
          let p := cacheTextureByHash reg hash t
          ⟨setImage r (some p.1) p.1.width p.1.height, p.2, false⟩
        | none => ⟨r, reg, true⟩
      else ⟨r, reg, true⟩
  else ⟨r, reg, true⟩

/-- The result of Qt's `QImage::fromData` on the raw content: the dimensions
and whether the format was recognized (a zero-length buffer yields a null
image: zero width, zero height, invalid format). -/
structure ParsedImage where
  width : Nat
  height : Nat
  formatValid : Bool
deriving DecidableEq, Repr

/-- Everything `ImageReader::read` consults besides the live registry: the
parse result, the pixel budget `_maxNumPixels`, the content hash, the
dimensions the floating-point downscale step would produce, the liveness of
the weak back-reference to the resource at the transform and at the deliver
step, the usage transform's result, whether the cache singleton is still
alive, and the outcomes of KTX serialization and of the file-cache write. -/
structure ReadEnv where
  image : ParsedImage
  maxNumPixels : Nat
  hash : Hash
  scaledWidth : Nat
  scaledHeight : Nat
  aliveAtTransform : Bool
  loaderResult : Option GpuTexture
  serializeOk : Bool
  cacheAlive : Bool
  writeFileOk : Bool
  aliveAtDeliver : Bool

/-- How a run of the read task ends. -/
inductive ReadOutcome
  | abandonedAtStart
  | parseFailed
  | abandonedBeforeTransform
  | nullDeref
  | delivered (t : GpuTexture) (w h : Nat)
  | abandonedAtDeliver (t : GpuTexture)
deriving DecidableEq, Repr

/-- Result of the read task: how it ended, the registry and whether the KTX
file-cache write happened, plus the value the `if (texture)` guard had when
(and only when) control reached it. -/
structure ReadResult where
  outcome : ReadOutcome
  registry : Registry
  diskWritten : Bool
  fallbackGuard : Option Bool

/-- `ImageReader::read`: parse validation (zero width, zero height or invalid
format returns with no effect at all), the `_maxNumPixels` downscale guard,
the first weak-reference lock before the usage transform, the
`texture->setSource(url)` dereference of the transform's result *before* the
`if (texture)` null check, KTX serialization and the file-cache write (both
failures only logged), reconciliation through `cacheTextureByHash`, and the
final weak-reference lock that decides whether `setImage` is queued. -/
def imageReaderRead (env : ReadEnv) (reg : Registry) : ReadResult :=
  if env.image.width = 0 ∨ env.image.height = 0 ∨ env.image.formatValid = false then
    ⟨.parseFailed, reg, false, none⟩
  else
    let dims : Nat × Nat :=
      if env.maxNumPixels < env.image.width * env.image.height then
        (env.scaledWidth, env.scaledHeight)
      else (env.image.width, env.image.height)
    if env.aliveAtTransform = false then
      ⟨.abandonedBeforeTransform, reg, false, none⟩
    else
      match env.loaderResult with
      | none => ⟨.nullDeref, reg, false, none⟩
      | some t =>
        let texture : Option GpuTexture := some t
        let guard := texture.isSome
        let diskWritten := env.serializeOk && env.cacheAlive && env.writeFileOk
        let p := if env.cacheAlive = true then cacheTextureByHash reg env.hash t else (t, reg)
        if env.aliveAtDeliver = true then
          ⟨.delivered p.1 dims.1 dims.2, p.2, diskWritten, some guard⟩
        else
          ⟨.abandonedAtDeliver p.1, p.2, diskWritten, some guard⟩

/-- `Reader::run`: before calling `read()` the task bails out when the weak
back-reference to the resource is already dead. -/
def readerRun (aliveAtStart : Bool) (env : ReadEnv) (reg : Registry) : ReadResult :=
  if aliveAtStart then imageReaderRead env reg
  else ⟨.abandonedAtStart, reg, false, none⟩

/-- The effect of a finished read task on the originating resource: only a
`delivered` outcome invokes `setImage`; every other outcome leaves the
resource untouched (no code path of `ImageReader::read` marks the resource
failed). -/
def resourceAfterRead (r : NetworkTextureState) : ReadOutcome → NetworkTextureState
  | .delivered t w h => setImage r (some t) w h
  | _ => r

/-- `(int)(x + 0.5f)` applied to the non-negative value `x`: the resulting
integer differs from `x` by at most one half. -/
def isRoundedDim (x : ℚ) (n : Nat) : Prop := |(n : ℚ) - x| ≤ 1 / 2

/-- `sqrtf(maxNumPixels / (float)(imageWidth * imageHeight))`: the
non-negative scale whose square times the pixel count equals the budget. -/
def isScaleFactor (budget pixels : Nat) (s : ℚ) : Prop :=
  0 ≤ s ∧ s ^ 2 * (pixels : ℚ) = (budget : ℚ)

/-- The downscale arithmetic of `ImageReader::read`: with
`scaleFactor = sqrt(budget/(w*h))`, the new width is `round(scaleFactor*w)`
and the new height is `round(scaleFactor*h)`, each rounded independently. -/
def downscaledDims (budget w h : Nat) (s : ℚ) (w2 h2 : Nat) : Prop :=
  isScaleFactor budget (w * h) s ∧ isRoundedDim (s * w) w2 ∧ isRoundedDim (s * h) h2

/-- The dimension step of `ImageReader::read`: downscale exactly when
`w*h > maxNumPixels`, otherwise keep the parsed dimensions. -/
def readDims (maxNumPixels w h : Nat) (s : ℚ) (w2 h2 : Nat) : Prop :=
  if maxNumPixels < w * h then downscaledDims maxNumPixels w h s w2 h2
  else w2 = w ∧ h2 = h

/-- Helper: on a registry miss `cacheTextureByHash` installs the candidate. -/
theorem cacheTextureByHash_of_miss (reg : Registry) (h : Hash) (t : GpuTexture)
    (hm : getTextureByHash reg h = none) :
    cacheTextureByHash reg h t =
      (t, fun h2 => if h2 = h then some ⟨t, true⟩ else reg h2) := by
  rw [getTextureByHash] at hm
  simp [cacheTextureByHash, hm]

/-- Claim C1: `cacheTextureByHash(h, t)` installs `t` and returns `t` when no
live entry exists for `h` (an absent entry and a dead weak reference alike),
and when a live entry exists it returns that entry and leaves the registry
unchanged; in both cases the accepted texture is afterwards the unique live
holder for `h`, so at most one texture is authoritative per hash. -/
theorem cacheTextureByHash_insertOrAdopt (reg : Registry) (h : Hash) (t : GpuTexture) :
    (getTextureByHash reg h = none →
      (cacheTextureByHash reg h t).1 = t ∧
      (cacheTextureByHash reg h t).2 h = some ⟨t, true⟩ ∧
      ∀ h2, h2 ≠ h → (cacheTextureByHash reg h t).2 h2 = reg h2) ∧
    (∀ t0, getTextureByHash reg h = some t0 →
      (cacheTextureByHash reg h t).1 = t0 ∧
      (cacheTextureByHash reg h t).2 = reg) ∧
    getTextureByHash (cacheTextureByHash reg h t).2 h =
      some (cacheTextureByHash reg h t).1 := by
  rcases hm : (reg h).bind WeakRef.lock with _ | t0
  · refine ⟨fun _ => ⟨?_, ?_, fun h2 hne => ?_⟩, fun t0 ht0 => ?_, ?_⟩
    · simp [cacheTextureByHash, hm]
    · simp [cacheTextureByHash, hm]
    · simp [cacheTextureByHash, hm, hne]
    · rw [getTextureByHash, hm] at ht0
      exact absurd ht0 (by simp)
    · simp only [cacheTextureByHash, hm]
      simp [getTextureByHash, WeakRef.lock]
  · refine ⟨fun habs => ?_, fun t1 ht1 => ?_, ?_⟩
    · rw [getTextureByHash, hm] at habs
      exact absurd habs (by simp)
    · rw [getTextureByHash, hm] at ht1
      simp only [cacheTextureByHash, hm]
      exact ⟨Option.some_inj.mp ht1, trivial⟩
    · simp only [cacheTextureByHash, hm]
      rw [getTextureByHash, hm]

/-- Claim C1 witness: a registry whose entry for `"k"` is a dead weak
reference counts as a miss, the candidate is installed and returned; on the
resulting registry a second candidate for `"k"` is discarded in favour of the
first. -/
theorem cacheTextureByHash_insertOrAdopt_witness :
    (cacheTextureByHash (fun h => if h = "k" then some ⟨⟨7, 7, 9⟩, false⟩ else none)
        "k" ⟨1, 2, 3⟩).1 = ⟨1, 2, 3⟩ ∧
    (cacheTextureByHash
        (cacheTextureByHash (fun h => if h = "k" then some ⟨⟨7, 7, 9⟩, false⟩ else none)
          "k" ⟨1, 2, 3⟩).2 "k" ⟨4, 5, 6⟩).1 = ⟨1, 2, 3⟩ := by
  refine ⟨((cacheTextureByHash_insertOrAdopt
      (fun h => if h = "k" then some ⟨⟨7, 7, 9⟩, false⟩ else none) "k" ⟨1, 2, 3⟩).1
      (by simp [getTextureByHash, WeakRef.lock])).1, ?_⟩
  exact ((cacheTextureByHash_insertOrAdopt _ "k" ⟨4, 5, 6⟩).2.1 ⟨1, 2, 3⟩
    (by simp [getTextureByHash, cacheTextureByHash, WeakRef.lock])).1

/-- Claim C2 counterexample: the claim says `BUMP_TEXTURE` (among others)
falls back to white, but the switch leaves the result null for it. -/
theorem getFallbackTextureForType_bump_not_white :
    getFallbackTextureForType true TextureType.BUMP_TEXTURE = none ∧
    getFallbackTextureForType true TextureType.BUMP_TEXTURE ≠ some FallbackColor.white := by
  decide

/-- Claim C2 (amended): with the cache alive, the fallback lookup returns blue
for NORMAL; black for EMISSIVE and LIGHTMAP; white for DEFAULT, ALBEDO,
ROUGHNESS and OCCLUSION only; and a null texture (no fallback) for BUMP,
SPECULAR, GLOSS, CUBE, STRICT and CUSTOM. -/
theorem getFallbackTextureForType_table :
    getFallbackTextureForType true TextureType.NORMAL_TEXTURE = some FallbackColor.blue ∧
    getFallbackTextureForType true TextureType.EMISSIVE_TEXTURE = some FallbackColor.black ∧
    getFallbackTextureForType true TextureType.LIGHTMAP_TEXTURE = some FallbackColor.black ∧
    getFallbackTextureForType true TextureType.DEFAULT_TEXTURE = some FallbackColor.white ∧
    getFallbackTextureForType true TextureType.ALBEDO_TEXTURE = some FallbackColor.white ∧
    getFallbackTextureForType true TextureType.ROUGHNESS_TEXTURE = some FallbackColor.white ∧
    getFallbackTextureForType true TextureType.OCCLUSION_TEXTURE = some FallbackColor.white ∧
    getFallbackTextureForType true TextureType.BUMP_TEXTURE = none ∧
    getFallbackTextureForType true TextureType.SPECULAR_TEXTURE = none ∧
    getFallbackTextureForType true TextureType.GLOSS_TEXTURE = none ∧
    getFallbackTextureForType true TextureType.CUBE_TEXTURE = none ∧
    getFallbackTextureForType true TextureType.STRICT_TEXTURE = none ∧
    getFallbackTextureForType true TextureType.CUSTOM_TEXTURE = none := by
  decide

/-- Claim C10: every `setImage` call — a null texture included — marks the
resource successfully loaded (`finishedLoading(true)`), clears any failure,
and emits the created notification; with a null texture the cached width and
height become 0.  Delivery of a null texture therefore ends in the success
state, never in `Failed`. -/
theorem setImage_always_succeeds (r : NetworkTextureState) (t : Option GpuTexture)
    (ow oh : Nat) :
    (setImage r t ow oh).loaded = true ∧
    (setImage r t ow oh).failed = false ∧
    (setImage r t ow oh).createdEmitted = true ∧
    (t = none → (setImage r t ow oh).width = 0 ∧ (setImage r t ow oh).height = 0) := by
  refine ⟨rfl, rfl, rfl, fun ht => ?_⟩
  subst ht
  exact ⟨rfl, rfl⟩

/-- Claim C10 witness: delivering a null texture to a fresh resource leaves it
loaded, not failed, notified, with zero dimensions. -/
theorem setImage_always_succeeds_witness :
    (setImage freshState none 4 5).loaded = true ∧
    (setImage freshState none 4 5).failed = false ∧
    (setImage freshState none 4 5).createdEmitted = true ∧
    (setImage freshState none 4 5).width = 0 ∧
    (setImage freshState none 4 5).height = 0 := by
  have h := setImage_always_succeeds freshState none 4 5
  exact ⟨h.1, h.2.1, h.2.2.1, (h.2.2.2 rfl).1, (h.2.2.2 rfl).2⟩

/-- Claim C8 counterexample: a resource constructed with an invalid URL but
non-empty inline content is marked loaded, yet still queues `loadContent` —
which unconditionally hashes the bytes and can schedule a decode — so the
claim's "without computing a hash or scheduling any decode" fails. -/
theorem networkTextureConstruct_invalid_url_with_content :
    (networkTextureConstruct false false).st.loaded = true ∧
    (networkTextureConstruct false false).loadContentScheduled = true := by
  decide

/-- Claim C8 (amended): a resource constructed with an invalid URL and no
inline content is immediately marked loaded, holds no texture, never started
loading, and queues no content processing at all. -/
theorem networkTextureConstruct_invalid_url_no_content :
    (networkTextureConstruct false true).st.loaded = true ∧
    (networkTextureConstruct false true).st.texture = none ∧
    (networkTextureConstruct false true).st.startedLoading = false ∧
    (networkTextureConstruct false true).st.failed = false ∧
    (networkTextureConstruct false true).loadContentScheduled = false := by
  decide

/-- Claim C5: with the cache singleton alive, `loadContent` consults the live
registry first — on a live hit the outcome does not depend on the disk cache
and no decode is scheduled; on a registry miss, a disk entry that is present
and deserializes at both steps is adopted, registered via
`cacheTextureByHash` and installed, making the resource ready with no decode
task; a disk entry failing at the KTX-container step or the
texture-population step behaves as an ordinary miss: all state is unchanged
and a full decode task is scheduled. -/
theorem loadContent_disk_path (reg : Registry) (hash : Hash) (disk : DiskLookup)
    (r : NetworkTextureState) :
    (∀ t0, getTextureByHash reg hash = some t0 →
      loadContent true reg hash disk r =
        ⟨setImage r (some t0) t0.width t0.height, reg, false⟩) ∧
    (getTextureByHash reg hash = none →
      (∀ t, disk.filePresent = true → disk.ktxOk = true → disk.unserialized = some t →
        (loadContent true reg hash disk r).st = setImage r (some t) t.width t.height ∧
        (loadContent true reg hash disk r).st.loaded = true ∧
        getTextureByHash (loadContent true reg hash disk r).registry hash = some t ∧
        (loadContent true reg hash disk r).decodeScheduled = false) ∧
      ((disk.ktxOk = false ∨ disk.unserialized = none) →
        loadContent true reg hash disk r = ⟨r, reg, true⟩)) := by
  constructor
  · intro t0 ht0
    simp [loadContent, ht0]
  · intro hmiss
    constructor
    · intro t hfile hktx hun
      have hadopt := cacheTextureByHash_of_miss reg hash t hmiss
      have hL : loadContent true reg hash disk r =
          ⟨setImage r (some t) t.width t.height,
            fun h2 => if h2 = hash then some ⟨t, true⟩ else reg h2, false⟩ := by
        simp [loadContent, hmiss, hfile, hktx, hun, hadopt]
      refine ⟨by rw [hL], by rw [hL]; rfl, ?_, by rw [hL]⟩
      rw [hL]
      simp [getTextureByHash, WeakRef.lock]
    · rintro (hktx | hun)
      · simp [loadContent, hmiss, hktx]
      · rcases hfp : disk.filePresent with _ | _
        · simp [loadContent, hmiss, hfp]
        · simp [loadContent, hmiss, hfp, hun]

/-- Claim C5 witness: on an empty registry with a disk entry that
deserializes to a texture, the resource adopts it with no decode scheduled
and the registry afterwards resolves the hash to it; with an entry whose
KTX container fails to parse, everything is unchanged and a decode is
scheduled. -/
theorem loadContent_disk_path_witness :
    (loadContent true (fun _ => none) "h" ⟨true, true, some ⟨2, 3, 4⟩⟩ freshState).st =
      setImage freshState (some ⟨2, 3, 4⟩) 2 3 ∧
    getTextureByHash
      (loadContent true (fun _ => none) "h" ⟨true, true, some ⟨2, 3, 4⟩⟩ freshState).registry
      "h" = some ⟨2, 3, 4⟩ ∧
    (loadContent true (fun _ => none) "h" ⟨true, true, some ⟨2, 3, 4⟩⟩ freshState).decodeScheduled
      = false ∧
    (loadContent true (fun _ => none) "h" ⟨true, false, some ⟨2, 3, 4⟩⟩ freshState).decodeScheduled
      = true := by
  have h1 := ((loadContent_disk_path (fun _ => none) "h" ⟨true, true, some ⟨2, 3, 4⟩⟩
      freshState).2 rfl).1 ⟨2, 3, 4⟩ rfl rfl rfl
  have h2 := ((loadContent_disk_path (fun _ => none) "h" ⟨true, false, some ⟨2, 3, 4⟩⟩
      freshState).2 rfl).2 (Or.inl rfl)
  exact ⟨h1.1, h1.2.2.1, h1.2.2.2, by rw [h2]⟩

/-- Claim C3 counterexample: decoding a zero-length buffer (null parse: zero
width, zero height, invalid format) makes the task return with no effect; a
resource in mid-load stays exactly as it was — `failed` remains false and
`loaded` remains false, so it does not transition to a terminal Failed
state. -/
theorem imageReaderRead_parse_failure_not_failed :
    (resourceAfterRead (networkTextureConstruct true false).st
      (imageReaderRead
        ⟨⟨0, 0, false⟩, 100, "h", 0, 0, true, none, true, true, true, true⟩
        (fun _ => none)).outcome).failed = false ∧
    (resourceAfterRead (networkTextureConstruct true false).st
      (imageReaderRead
        ⟨⟨0, 0, false⟩, 100, "h", 0, 0, true, none, true, true, true, true⟩
        (fun _ => none)).outcome).loaded = false := by
  decide

/-- Claim C3 (amended): for every parse failure (zero width, zero height or
invalid format — a zero-length buffer in particular), the decode task ends
with no texture registered under the content hash, no disk write, and no
notification to the resource: the resource keeps its prior state unchanged
(it becomes neither Failed nor Ready). -/
theorem imageReaderRead_parse_failure (env : ReadEnv) (reg : Registry)
    (r : NetworkTextureState)
    (hbad : env.image.width = 0 ∨ env.image.height = 0 ∨ env.image.formatValid = false) :
    (imageReaderRead env reg).outcome = ReadOutcome.parseFailed ∧
    (imageReaderRead env reg).registry = reg ∧
    (imageReaderRead env reg).diskWritten = false ∧
    resourceAfterRead r (imageReaderRead env reg).outcome = r := by
  have hL : imageReaderRead env reg = ⟨.parseFailed, reg, false, none⟩ := by
    simp only [imageReaderRead, if_pos hbad]
  rw [hL]
  exact ⟨rfl, rfl, rfl, rfl⟩

/-- Claim C3 witness: a concrete invalid parse (zero dimensions) on an empty
registry: outcome is `parseFailed`, nothing registered under the hash, and
the fresh resource is untouched. -/
theorem imageReaderRead_parse_failure_witness :
    (imageReaderRead ⟨⟨0, 5, true⟩, 100, "h", 0, 0, true, none, true, true, true, true⟩
      (fun _ => none)).outcome = ReadOutcome.parseFailed ∧
    (imageReaderRead ⟨⟨0, 5, true⟩, 100, "h", 0, 0, true, none, true, true, true, true⟩
      (fun _ => none)).registry = (fun _ => none) ∧
    resourceAfterRead freshState
      (imageReaderRead ⟨⟨0, 5, true⟩, 100, "h", 0, 0, true, none, true, true, true, true⟩
        (fun _ => none)).outcome = freshState := by
  have h := imageReaderRead_parse_failure
    ⟨⟨0, 5, true⟩, 100, "h", 0, 0, true, none, true, true, true, true⟩
    (fun _ => none) freshState (Or.inl rfl)
  exact ⟨h.1, h.2.1, h.2.2.2⟩

/-- Claim C6: when parsing succeeds, the usage transform produces a texture,
and the resource is alive at both liveness checks, a failure of KTX
serialization or of the file-cache write is non-fatal: the texture is still
reconciled with the registry through `cacheTextureByHash`, still delivered
(the possibly replaced winner), and the resource reaches the loaded state. -/
theorem imageReaderRead_write_failure_nonfatal (env : ReadEnv) (reg : Registry)
    (r : NetworkTextureState) (t : GpuTexture)
    (hw : env.image.width ≠ 0) (hh : env.image.height ≠ 0)
    (hfmt : env.image.formatValid = true)
    (halive1 : env.aliveAtTransform = true) (hload : env.loaderResult = some t)
    (hcache : env.cacheAlive = true) (halive2 : env.aliveAtDeliver = true)
    (hfail : env.serializeOk = false ∨ env.writeFileOk = false) :
    (∃ w2 h2, (imageReaderRead env reg).outcome =
      ReadOutcome.delivered (cacheTextureByHash reg env.hash t).1 w2 h2) ∧
    (imageReaderRead env reg).registry = (cacheTextureByHash reg env.hash t).2 ∧
    (imageReaderRead env reg).diskWritten = false ∧
    (resourceAfterRead r (imageReaderRead env reg).outcome).loaded = true := by
  have hL : imageReaderRead env reg =
      ⟨.delivered (cacheTextureByHash reg env.hash t).1
        (if env.maxNumPixels < env.image.width * env.image.height then
          (env.scaledWidth, env.scaledHeight)
         else (env.image.width, env.image.height)).1
        (if env.maxNumPixels < env.image.width * env.image.height then
          (env.scaledWidth, env.scaledHeight)
         else (env.image.width, env.image.height)).2,
        (cacheTextureByHash reg env.hash t).2,
        env.serializeOk && env.cacheAlive && env.writeFileOk, some true⟩ := by
    simp [imageReaderRead, hw, hh, hfmt, halive1, hload, hcache, halive2]
  refine ⟨⟨_, _, by rw [hL]⟩, by rw [hL], ?_, by rw [hL]; rfl⟩
  rw [hL]
  rcases hfail with hf | hf <;> simp [hf]

/-- Claim C6 witness: serialization fails on a concrete decode yet the
texture is installed in the registry and delivered, and the resource is
loaded. -/
theorem imageReaderRead_write_failure_nonfatal_witness :
    (∃ w2 h2,
      (imageReaderRead ⟨⟨2, 2, true⟩, 100, "h", 0, 0, true, some ⟨2, 2, 4⟩, false, true, true, true⟩
        (fun _ => none)).outcome =
      ReadOutcome.delivered
        (cacheTextureByHash (fun _ => none) "h" ⟨2, 2, 4⟩).1 w2 h2) ∧
    (resourceAfterRead freshState
      (imageReaderRead ⟨⟨2, 2, true⟩, 100, "h", 0, 0, true, some ⟨2, 2, 4⟩, false, true, true, true⟩
        (fun _ => none)).outcome).loaded = true := by
  have h := imageReaderRead_write_failure_nonfatal
    ⟨⟨2, 2, true⟩, 100, "h", 0, 0, true, some ⟨2, 2, 4⟩, false, true, true, true⟩
    (fun _ => none) freshState ⟨2, 2, 4⟩
    (by decide) (by decide) rfl rfl rfl rfl rfl (Or.inl rfl)
  exact ⟨h.1, h.2.2.2⟩

/-- Claim C7: when the originating resource has been destroyed by the time
the task reaches the deliver step (the final weak-reference lock fails), the
task ends in `abandonedAtDeliver` — no `setImage` is queued and the resource
state is untouched — while the registry contents and the disk-write flag are
exactly what they would have been had delivery happened: completed steps are
left in place, not undone. -/
theorem imageReaderRead_abandon_at_deliver (env : ReadEnv) (reg : Registry)
    (r : NetworkTextureState) (t : GpuTexture)
    (hw : env.image.width ≠ 0) (hh : env.image.height ≠ 0)
    (hfmt : env.image.formatValid = true)
    (halive1 : env.aliveAtTransform = true) (hload : env.loaderResult = some t)
    (hdead : env.aliveAtDeliver = false) :
    (∃ t2, (imageReaderRead env reg).outcome = ReadOutcome.abandonedAtDeliver t2) ∧
    resourceAfterRead r (imageReaderRead env reg).outcome = r ∧
    (imageReaderRead env reg).registry =
      (imageReaderRead { env with aliveAtDeliver := true } reg).registry ∧
    (imageReaderRead env reg).diskWritten =
      (imageReaderRead { env with aliveAtDeliver := true } reg).diskWritten := by
  have hL : imageReaderRead env reg =
      ⟨.abandonedAtDeliver
        (if env.cacheAlive = true then cacheTextureByHash reg env.hash t else (t, reg)).1,
        (if env.cacheAlive = true then cacheTextureByHash reg env.hash t else (t, reg)).2,
        env.serializeOk && env.cacheAlive && env.writeFileOk, some true⟩ := by
    simp [imageReaderRead, hw, hh, hfmt, halive1, hload, hdead]
  have hL2 : imageReaderRead { env with aliveAtDeliver := true } reg =
      ⟨.delivered
        (if env.cacheAlive = true then cacheTextureByHash reg env.hash t else (t, reg)).1
        (if env.maxNumPixels < env.image.width * env.image.height then
          (env.scaledWidth, env.scaledHeight)
         else (env.image.width, env.image.height)).1
        (if env.maxNumPixels < env.image.width * env.image.height then
          (env.scaledWidth, env.scaledHeight)
         else (env.image.width, env.image.height)).2,
        (if env.cacheAlive = true then cacheTextureByHash reg env.hash t else (t, reg)).2,
        env.serializeOk && env.cacheAlive && env.writeFileOk, some true⟩ := by
    simp [imageReaderRead, hw, hh, hfmt, halive1, hload]
  exact ⟨⟨_, by rw [hL]⟩, by rw [hL]; rfl, by rw [hL, hL2], by rw [hL, hL2]⟩

/-- Claim C7 witness: a concrete decode whose resource dies before delivery:
the outcome abandons delivery, the fresh resource is untouched, and the
registry equals the registry of the corresponding delivered run. -/
theorem imageReaderRead_abandon_at_deliver_witness :
    (∃ t2,
      (imageReaderRead ⟨⟨2, 2, true⟩, 100, "h", 0, 0, true, some ⟨2, 2, 4⟩, true, true, true, false⟩
        (fun _ => none)).outcome = ReadOutcome.abandonedAtDeliver t2) ∧
    resourceAfterRead freshState
      (imageReaderRead ⟨⟨2, 2, true⟩, 100, "h", 0, 0, true, some ⟨2, 2, 4⟩, true, true, true, false⟩
        (fun _ => none)).outcome = freshState ∧
    (imageReaderRead ⟨⟨2, 2, true⟩, 100, "h", 0, 0, true, some ⟨2, 2, 4⟩, true, true, true, false⟩
        (fun _ => none)).registry =
      (imageReaderRead ⟨⟨2, 2, true⟩, 100, "h", 0, 0, true, some ⟨2, 2, 4⟩, true, true, true, true⟩
        (fun _ => none)).registry := by
  have h := imageReaderRead_abandon_at_deliver
    ⟨⟨2, 2, true⟩, 100, "h", 0, 0, true, some ⟨2, 2, 4⟩, true, true, true, false⟩
    (fun _ => none) freshState ⟨2, 2, 4⟩
    (by decide) (by decide) rfl rfl rfl rfl
  exact ⟨h.1, h.2.1, h.2.2.1⟩

/-- Claim C9: `ImageReader::read` calls `setSource` on the transform's result
before the `if (texture)` null check; a null transform result therefore ends
in a null-pointer dereference — not in any failed state, the resource being
left untouched — and whenever the `if (texture)` guard is actually evaluated
its value is true (the branch can never be false when reached). -/
theorem imageReaderRead_null_transform_deref (env : ReadEnv) (reg : Registry)
    (r : NetworkTextureState) :
    (env.image.width ≠ 0 → env.image.height ≠ 0 → env.image.formatValid = true →
      env.aliveAtTransform = true → env.loaderResult = none →
      (imageReaderRead env reg).outcome = ReadOutcome.nullDeref ∧
      resourceAfterRead r (imageReaderRead env reg).outcome = r) ∧
    ∀ g, (imageReaderRead env reg).fallbackGuard = some g → g = true := by
  constructor
  · intro hw hh hfmt halive1 hload
    have hL : imageReaderRead env reg = ⟨.nullDeref, reg, false, none⟩ := by
      simp [imageReaderRead, hw, hh, hfmt, halive1, hload]
    rw [hL]
    exact ⟨rfl, rfl⟩
  · intro g hg
    simp only [imageReaderRead] at hg
    split at hg
    · simp at hg
    · split at hg
      · simp at hg
      · rcases henv : env.loaderResult with _ | t
        · rw [henv] at hg
          simp at hg
        · rw [henv] at hg
          rw [apply_ite ReadResult.fallbackGuard] at hg
          simp only [ite_self] at hg
          simp_all

/-- Claim C9 witness: a concrete null transform result crashes with the
resource untouched; on a concrete successful run the guard evaluated to
true. -/
theorem imageReaderRead_null_transform_deref_witness :
    ((imageReaderRead ⟨⟨2, 2, true⟩, 100, "h", 0, 0, true, none, true, true, true, true⟩
      (fun _ => none)).outcome = ReadOutcome.nullDeref ∧
     resourceAfterRead freshState
      (imageReaderRead ⟨⟨2, 2, true⟩, 100, "h", 0, 0, true, none, true, true, true, true⟩
        (fun _ => none)).outcome = freshState) ∧
    ((imageReaderRead ⟨⟨2, 2, true⟩, 100, "h", 0, 0, true, some ⟨2, 2, 4⟩, true, true, true, true⟩
      (fun _ => none)).fallbackGuard = some true → True) := by
  constructor
  · exact (imageReaderRead_null_transform_deref
      ⟨⟨2, 2, true⟩, 100, "h", 0, 0, true, none, true, true, true, true⟩
      (fun _ => none) freshState).1 (by decide) (by decide) rfl rfl rfl
  · intro _
    trivial

/-- Claim C4: for the dimension step of `ImageReader::read` — with scale
`s = sqrt(budget/(w*h))` and per-axis rounding `w2 = round(s*w)`,
`h2 = round(s*h)` — whenever `w*h` exceeds the budget the scaled area is
within the budget up to the one-pixel-per-axis rounding tolerance
(`(w2-1)*(h2-1) ≤ budget`, truncated subtraction), the aspect ratio is
preserved up to rounding error (`|w2*h - h2*w| ≤ (w+h)/2`, i.e.
`|w2/h2 - w/h|` is bounded by the rounding slack), and whenever `w*h` is
within the budget the image is not resized. -/
theorem readDims_budget_bound (B w h : Nat) (s : ℚ) (w2 h2 : Nat)
    (hd : readDims B w h s w2 h2) :
    (B < w * h →
      (w2 - 1) * (h2 - 1) ≤ B ∧
      |(w2 : ℚ) * (h : ℚ) - (h2 : ℚ) * (w : ℚ)| ≤ ((w : ℚ) + (h : ℚ)) / 2) ∧
    (¬ B < w * h → w2 = w ∧ h2 = h) := by
  constructor
  · intro hover
    unfold readDims at hd
    rw [if_pos hover] at hd
    obtain ⟨⟨hs0, hsq⟩, hr1, hr2⟩ := hd
    rw [isRoundedDim] at hr1 hr2
    push_cast at hsq
    obtain ⟨h1a, h1b⟩ := abs_le.mp hr1
    obtain ⟨h2a, h2b⟩ := abs_le.mp hr2
    constructor
    · by_cases hw2 : w2 ≤ 1
      · have : w2 - 1 = 0 := by omega
        rw [this]
        simp
      by_cases hh2 : h2 ≤ 1
      · have : h2 - 1 = 0 := by omega
        rw [this]
        simp
      have hcw : ((2 : ℚ)) ≤ (w2 : ℚ) := by exact_mod_cast (by omega : 2 ≤ w2)
      have hch : ((2 : ℚ)) ≤ (h2 : ℚ) := by exact_mod_cast (by omega : 2 ≤ h2)
      have hsw : (3 : ℚ)/2 ≤ s * w := by linarith
      have hsh : (3 : ℚ)/2 ≤ s * h := by linarith
      have k1 : ((w2 : ℚ) - 1) * ((h2 : ℚ) - 1) ≤ (s*w - 1/2) * (s*h - 1/2) :=
        mul_le_mul (by linarith) (by linarith) (by linarith) (by linarith)
      have k2 : (s*w - 1/2) * (s*h - 1/2) = s^2*((w : ℚ)*(h : ℚ)) - (s*w + s*h)/2 + 1/4 := by
        ring
      have karea : ((w2 : ℚ) - 1) * ((h2 : ℚ) - 1) < (B : ℚ) := by
        rw [k2] at k1
        linarith
      have hfin : (((w2 - 1) * (h2 - 1) : ℕ) : ℚ) < (B : ℚ) := by
        push_cast [Nat.cast_sub (show 1 ≤ w2 by omega), Nat.cast_sub (show 1 ≤ h2 by omega)]
        exact karea
      exact le_of_lt (by exact_mod_cast hfin)
    · have hwq : (0 : ℚ) ≤ (w : ℚ) := Nat.cast_nonneg w
      have hhq : (0 : ℚ) ≤ (h : ℚ) := Nat.cast_nonneg h
      have e : (w2 : ℚ) * (h : ℚ) - (h2 : ℚ) * (w : ℚ) =
          ((w2 : ℚ) - s*w) * h - ((h2 : ℚ) - s*h) * w := by
        ring
      rw [e, abs_le]
      have p1 := mul_le_mul_of_nonneg_right h1b hhq
      have p2 := mul_le_mul_of_nonneg_right h1a hhq
      have p3 := mul_le_mul_of_nonneg_right h2b hwq
      have p4 := mul_le_mul_of_nonneg_right h2a hwq
      constructor <;> nlinarith [p1, p2, p3, p4]
  · intro hnot
    unfold readDims at hd
    rw [if_neg hnot] at hd
    exact hd

/-- Claim C4 witness: a 4x4 image under a budget of 4 pixels scales by
`s = 1/2` to 2x2: both rounding facts hold exactly, the area bound and the
aspect bound hold, and a 2x2 image under the same budget is not resized. -/
theorem readDims_budget_bound_witness :
    readDims 4 4 4 (1/2) 2 2 ∧
    ((2 - 1) * (2 - 1) ≤ 4 ∧
      |(2 : ℚ) * (4 : ℚ) - (2 : ℚ) * (4 : ℚ)| ≤ ((4 : ℚ) + (4 : ℚ)) / 2) ∧
    (readDims 4 2 2 1 2 2 ∧ (2 = 2 ∧ 2 = 2)) := by
  have hd : readDims 4 4 4 (1/2) 2 2 := by
    unfold readDims downscaledDims isScaleFactor isRoundedDim
    norm_num
  have hd2 : readDims 4 2 2 1 2 2 := by
    unfold readDims
    norm_num
  refine ⟨hd, ?_, hd2, (readDims_budget_bound 4 2 2 1 2 2 hd2).2 (by norm_num)⟩
  exact (readDims_budget_bound 4 4 4 (1/2) 2 2 hd).1 (by norm_num)
